import Mathlib

set_option maxRecDepth 40000

/-!
Verification of `.github/matrix.py`: the CI build-matrix generator.

The script is embedded shallowly:

* Pure string manipulation (`clean_ssl`, `clean_compression`, the Python
  substring test `in`, `str.replace`, `str.lower`, slicing) is translated to
  Lean functions over `String`.
* The two network fetches are the only external inputs.  Each is abstracted
  by a small inductive describing what `urllib.request.urlopen` did: either
  it raised (network error or non-2xx `HTTPError` -- both are swallowed by
  the bare `except:` around the `urlopen` call), or it returned a body.
  For the OpenSSL endpoint the body is represented by the result of
  `json.loads` on it (`none` when the body is malformed and `json.loads`
  raises); for the LibreSSL endpoint by its decoded lines.
* Python code that can raise an uncaught exception is modelled in
  `Except String`, the error holding the name of the escaping exception.
* Process-level behaviour (argv handling, stdout/stderr, exit status) is
  modelled by `mainRun` returning a `RunResult`.
-/

/-- Contiguous-sublist test on character lists, by scanning every suffix. -/
def listInfix (needle : List Char) : List Char → Bool
  | [] => needle.isEmpty
  | c :: rest => needle.isPrefixOf (c :: rest) || listInfix needle rest

/-- Python's substring test `needle in hay` on strings. -/
def pyIn (needle hay : String) : Bool :=
  listInfix needle.data hay.data

/-- Replaces non-overlapping occurrences of `pat` left to right, as Python's
`str.replace` does for a non-empty pattern.  `fuel` bounds the recursion and
is instantiated with `length + 1`, enough for the scan to finish. -/
def replaceAux : Nat → List Char → List Char → List Char → List Char
  | 0, cs, _, _ => cs
  | fuel + 1, cs, pat, rep =>
      if pat.isPrefixOf cs then rep ++ replaceAux fuel (cs.drop pat.length) pat rep
      else
        match cs with
        | [] => []
        | c :: rest => c :: replaceAux fuel rest pat rep

/-- Python's `s.replace(pat, rep)` for a non-empty `pat`. -/
def pyReplace (s pat rep : String) : String :=
  String.mk (replaceAux (s.length + 1) s.data pat.data rep.data)

/-- Python's `s.lower()`; all strings the script lowercases are ASCII, where
`Char.toLower` agrees with Python. -/
def pyLower (s : String) : String :=
  String.mk (s.data.map Char.toLower)

/-- `clean_ssl` (matrix.py line 35): `ssl.replace("_VERSION", "").lower()`. -/
def clean_ssl (ssl : String) : String :=
  pyLower (pyReplace ssl "_VERSION" "")

/-- `clean_compression` (matrix.py line 76): `compression.replace("USE_", "").lower()`. -/
def clean_compression (compression : String) : String :=
  pyLower (pyReplace compression "USE_" "")

/-- What the `urlopen` of the OpenSSL tags endpoint did.  `fetchError` covers
every exception raised by `urlopen` itself (network error, non-2xx
`HTTPError`): these are caught by the `try`/bare-`except` in
`determine_latest_openssl`.  `body d` is a successful response whose payload
is represented by its JSON decoding `d`: `none` when the body is malformed and
`json.loads` raises, `some names` when it is a JSON array of tag objects whose
`"name"` fields are `names`. -/
inductive OpensslFetch where
  | fetchError
  | body (decoded : Option (List String))

/-- Python's `<` on strings: lexicographic comparison by code point. -/
def pyStrLtChars : List Char → List Char → Bool
  | _, [] => false
  | [], _ :: _ => true
  | a :: as, b :: bs =>
      if a.toNat < b.toNat then true
      else if b.toNat < a.toNat then false
      else pyStrLtChars as bs

/-- Python's `a < b` on strings. -/
def pyStrLt (a b : String) : Bool :=
  pyStrLtChars a.data b.data

/-- One step of the tag-selection loop in `determine_latest_openssl`
(lines 52-56): `if "openssl-" in name: if name > latest_tag: latest_tag = name`.
`name > latest_tag` is Python's code-point lexicographic comparison. -/
def opensslFoldStep (latest_tag name : String) : String :=
  if pyIn "openssl-" name && pyStrLt latest_tag name then name else latest_tag

/-- `determine_latest_openssl` (matrix.py lines 39-58).  Only the `urlopen`
call sits inside the `try:`; `json.loads` runs after the `except` clause, so a
malformed body makes the function raise (`.error`).  The final result slices
off the first 8 characters (`"openssl-"`) of the winning tag and formats
`"OPENSSL_VERSION={}"`.  The Python function's `ssl` argument is only an
`lru_cache` key and is never read by the body, so it is dropped here; the cache
itself is modelled separately by `lruResolve`. -/
def determine_latest_openssl : OpensslFetch → Except String String
  | .fetchError => .ok "OPENSSL_VERSION=failed_to_detect"
  | .body none => .error "json.JSONDecodeError"
  | .body (some tags) =>
      .ok ("OPENSSL_VERSION=" ++ String.mk ((tags.foldl opensslFoldStep "").data.drop 8))

/-- Matches the regex alternative `.tar.gz.asc` (from the split pattern
`"libressl-|.tar.gz.asc"`) at the head of the character list: `.` is any
character except a newline.  Returns true when the 11-character pattern
matches. -/
def dotAscMatch : List Char → Bool
  | c0 :: 't' :: 'a' :: 'r' :: c4 :: 'g' :: 'z' :: c7 :: 'a' :: 's' :: 'c' :: _ =>
      c0 != '\n' && c4 != '\n' && c7 != '\n'
  | _ => false

/-- Leftmost, non-overlapping scan of `re.split("libressl-|.tar.gz.asc", s)`:
at each position the engine first tries the literal alternative `libressl-`
(9 characters), then `.tar.gz.asc` (11 characters, dots matching any
non-newline character).  `fuel` bounds the recursion; it is instantiated with
`length + 1`, enough for the scan to finish. -/
def reSplitAux : Nat → List Char → List Char → List String
  | 0, cs, acc => [String.mk (acc.reverse ++ cs)]
  | fuel + 1, cs, acc =>
      if "libressl-".data.isPrefixOf cs then
        String.mk acc.reverse :: reSplitAux fuel (cs.drop 9) []
      else if dotAscMatch cs then
        String.mk acc.reverse :: reSplitAux fuel (cs.drop 11) []
      else
        match cs with
        | [] => [String.mk acc.reverse]
        | c :: rest => reSplitAux fuel rest (c :: acc)

/-- `re.split("libressl-|.tar.gz.asc", s)` as used on each matching line of
the LibreSSL directory listing (matrix.py line 72). -/
def reSplitLibressl (s : String) : List String :=
  reSplitAux (s.length + 1) s.data []

/-- What the `urlopen` of the LibreSSL listing endpoint did: `fetchError` when
`urlopen` raised (caught by the bare `except:`), otherwise the decoded lines
returned by `readlines()`. -/
inductive LibresslFetch where
  | fetchError
  | body (lines : List String)

/-- The line scan of `determine_latest_libressl` (lines 69-72): the loop
variable `l` keeps the version extracted from the *last* line containing both
`"libressl-"` and `".tar.gz.asc"` (both literal substring tests); `none` means
`l` was never assigned. -/
def libresslLoop (lines : List String) : Option String :=
  lines.foldl
    (fun l decoded_line =>
      if pyIn "libressl-" decoded_line && pyIn ".tar.gz.asc" decoded_line then
        some ((reSplitLibressl decoded_line).getD 1 "")
      else l)
    none

/-- `determine_latest_libressl` (matrix.py lines 61-73).  Only the `urlopen`
call is guarded by `try:`; after a successful fetch, if no line matched, the
final `format(l)` reads an unassigned local and raises `NameError` (`.error`).
As with the OpenSSL resolver, the `ssl` argument is only an `lru_cache` key. -/
def determine_latest_libressl : LibresslFetch → Except String String
  | .fetchError => .ok "LIBRESSL_VERSION=failed_to_detect"
  | .body lines =>
      match libresslLoop lines with
      | some l => .ok ("LIBRESSL_VERSION=" ++ l)
      | none => .error "NameError"

deriving instance DecidableEq for Except

/-- A matrix entry (one dict appended to `matrix`).  The source dict has keys
`name`, `os`, `TARGET`, `CC`, `FLAGS`, plus -- only for the entries built in
the ssl loop -- an extra key `ssl`; the optional key is modelled by an
`Option` field (`none` = key absent). -/
structure MatrixEntry where
  name : String
  os : String
  TARGET : String
  CC : String
  ssl : Option String
  FLAGS : List String
deriving DecidableEq

/-- The hard-coded "all features" flag list (matrix.py lines 117-135; the
source writes the same literal out a second time for the ASAN entry,
lines 153-171). -/
def all_features_flags : List String :=
  [ "USE_ZLIB=1",
    "USE_OT=1",
    "OT_INC=${HOME}/opt-ot/include",
    "OT_LIB=${HOME}/opt-ot/lib",
    "OT_RUNPATH=1",
    "USE_PCRE=1",
    "USE_PCRE_JIT=1",
    "USE_LUA=1",
    "USE_OPENSSL=1",
    "USE_SYSTEMD=1",
    "USE_WURFL=1",
    "WURFL_INC=addons/wurfl/dummy",
    "WURFL_LIB=addons/wurfl/dummy",
    "USE_DEVICEATLAS=1",
    "DEVICEATLAS_SRC=addons/deviceatlas/dummy",
    "USE_PROMEX=1",
    "USE_51DEGREES=1",
    "51DEGREES_SRC=addons/51degrees/dummy/pattern" ]

/-- `get_asan_flags` (matrix.py lines 80-86); the `cc` parameter is unused in
the source body as well. -/
def get_asan_flags (cc : String) : List String :=
  [ "USE_OBSOLETE_LINKER=1",
    "DEBUG_CFLAGS=\"-g -fsanitize=address\"",
    "LDFLAGS=\"-fsanitize=address\"",
    "CPU_CFLAGS.generic=\"-O1\"" ]

/-- A "no features" entry (`name = "<os>, <cc>, no features"`, empty flag
list); the same dict literal appears for the Linux leg (lines 100-108) and
the macOS leg (lines 228-236), differing only in `os`/`TARGET`/`CC`. -/
def noFeaturesEntry (os' target cc : String) : MatrixEntry :=
  { name := os' ++ ", " ++ cc ++ ", no features"
    os := os', TARGET := target, CC := cc, ssl := none, FLAGS := [] }

/-- The "all features" entry (matrix.py lines 110-137). -/
def allFeaturesEntry (os' cc : String) : MatrixEntry :=
  { name := os' ++ ", " ++ cc ++ ", all features"
    os := os', TARGET := "linux-glibc", CC := cc, ssl := none
    FLAGS := all_features_flags }

/-- The "ASAN, all features" entry (matrix.py lines 141-173). -/
def asanEntry (os' cc : String) : MatrixEntry :=
  { name := os' ++ ", " ++ cc ++ ", ASAN, all features"
    os := os', TARGET := "linux-glibc", CC := cc, ssl := none
    FLAGS := get_asan_flags cc ++ all_features_flags }

/-- The compression loop (matrix.py lines 175-184): one single-flag entry per
element of the fixed list `["USE_ZLIB=1"]`. -/
def compressionEntries (os' cc : String) : List MatrixEntry :=
  ["USE_ZLIB=1"].map fun compression =>
    { name := os' ++ ", " ++ cc ++ ", gz=" ++ clean_compression compression
      os := os', TARGET := "linux-glibc", CC := cc, ssl := none
      FLAGS := [compression] }

/-- The four static entries emitted for one Linux compiler before its ssl
entries, in source order. -/
def linuxStatic (os' cc : String) : List MatrixEntry :=
  [noFeaturesEntry os' "linux-glibc" cc, allFeaturesEntry os' cc, asanEntry os' cc]
    ++ compressionEntries os' cc

/-- The ssl candidate list (matrix.py lines 186-194): `"BORINGSSL=yes"` is
commented out in the source; development branches (no `"haproxy-"` in the ref)
append the two `latest` markers. -/
def ssl_versionsFor (stable : Bool) : List String :=
  let base := ["stock", "OPENSSL_VERSION=1.0.2u", "OPENSSL_VERSION=1.1.1s", "QUICTLS=yes"]
  if !stable then base ++ ["OPENSSL_VERSION=latest", "LIBRESSL_VERSION=latest"]
  else base

/-- The ssl candidate list for a given ref name. -/
def ssl_versions (ref_name : String) : List String :=
  ssl_versionsFor (pyIn "haproxy-" ref_name)

/-- Flag construction of the ssl loop (matrix.py lines 197-202): base flag,
then the QUIC flag for `BORINGSSL=yes` / `QUICTLS=yes` / any marker containing
`"LIBRESSL"`, then the custom lib/include paths unless the marker is exactly
`"stock"`.  All appends happen before any `latest` resolution. -/
def sslFlags (ssl : String) : List String :=
  ["USE_OPENSSL=1"]
    ++ (if ssl == "BORINGSSL=yes" || ssl == "QUICTLS=yes" || pyIn "LIBRESSL" ssl then
          ["USE_QUIC=1"]
        else [])
    ++ (if ssl != "stock" then ["SSL_LIB=${HOME}/opt/lib", "SSL_INC=${HOME}/opt/include"]
        else [])

/-- The `latest` resolution of the ssl loop (matrix.py lines 203-206): first
the LibreSSL rebinding, then -- testing the possibly already rebound value,
exactly as the source does -- the OpenSSL rebinding.  A resolver that raises
propagates as `.error`. -/
def resolveSsl (ssl : String) (oF : OpensslFetch) (lF : LibresslFetch) :
    Except String String :=
  match (if pyIn "LIBRESSL" ssl && pyIn "latest" ssl then determine_latest_libressl lF
         else .ok ssl) with
  | .error e => .error e
  | .ok ssl1 =>
      if pyIn "OPENSSL" ssl1 && pyIn "latest" ssl1 then determine_latest_openssl oF
      else .ok ssl1

/-- One iteration of the ssl loop (matrix.py lines 196-217): build the flags
from the original marker, resolve `latest` markers, then emit the entry whose
`name`/`ssl` use the resolved value. -/
def sslEntry (os' cc ssl : String) (oF : OpensslFetch) (lF : LibresslFetch) :
    Except String MatrixEntry :=
  match resolveSsl ssl oF lF with
  | .error e => .error e
  | .ok s =>
      .ok { name := os' ++ ", " ++ cc ++ ", ssl=" ++ clean_ssl s
            os := os', TARGET := "linux-glibc", CC := cc, ssl := some s
            FLAGS := sslFlags ssl }

/-- The ssl loop over a marker list, in order; a raising iteration aborts the
run, keeping the entries emitted so far unprinted (the JSON print happens only
at the very end of the script). -/
def sslEntriesFrom (os' cc : String) (oF : OpensslFetch) (lF : LibresslFetch) :
    List String → Except String (List MatrixEntry)
  | [] => .ok []
  | s :: rest =>
      match sslEntry os' cc s oF lF with
      | .error e => .error e
      | .ok e =>
          match sslEntriesFrom os' cc oF lF rest with
          | .error e2 => .error e2
          | .ok es => .ok (e :: es)

/-- Assembles the whole matrix from the two compilers' ssl entries: for each
`CC` in `["gcc", "clang"]` the four static entries then the ssl entries, and
finally the single macOS `clang` "no features" entry (matrix.py lines 220-236). -/
def assemble (linOs macOs : String) (gcc clang : Except String (List MatrixEntry)) :
    Except String (List MatrixEntry) :=
  match gcc with
  | .error e => .error e
  | .ok gs =>
      match clang with
      | .error e => .error e
      | .ok cs =>
          .ok (linuxStatic linOs "gcc" ++ gs ++ linuxStatic linOs "clang" ++ cs
                ++ [noFeaturesEntry macOs "osx" "clang"])

/-- The Linux OS label (matrix.py lines 93-96). -/
def linux_os (ref_name : String) : String :=
  if pyIn "haproxy-" ref_name then "ubuntu-22.04" else "ubuntu-latest"

/-- The macOS OS label (matrix.py lines 222-225). -/
def macos_os (ref_name : String) : String :=
  if pyIn "haproxy-" ref_name then "macos-12" else "macos-latest"

/-- The matrix construction parameterised by the branch classification
(`stable` = ref contains `"haproxy-"`). -/
def buildMatrixFor (stable : Bool) (oF : OpensslFetch) (lF : LibresslFetch) :
    Except String (List MatrixEntry) :=
  let linOs := if stable then "ubuntu-22.04" else "ubuntu-latest"
  assemble linOs (if stable then "macos-12" else "macos-latest")
    (sslEntriesFrom linOs "gcc" oF lF (ssl_versionsFor stable))
    (sslEntriesFrom linOs "clang" oF lF (ssl_versionsFor stable))

/-- The full matrix list built by the script for a ref name, given the two
fetch outcomes. -/
def buildMatrix (ref_name : String) (oF : OpensslFetch) (lF : LibresslFetch) :
    Except String (List MatrixEntry) :=
  buildMatrixFor (pyIn "haproxy-" ref_name) oF lF

/-- The built matrix, defaulting to `[]` on an aborted run; used to state
concrete facts about particular runs. -/
def theMatrix (ref_name : String) (oF : OpensslFetch) (lF : LibresslFetch) :
    List MatrixEntry :=
  (buildMatrix ref_name oF lF).toOption.getD []

/-- The five display-name shapes an entry can take. -/
inductive EntryKind where
  | noFeatures
  | allFeatures
  | asan
  | gz
  | sslK
deriving DecidableEq

/-- Classifies an entry by its shape: entries carrying the extra `ssl` key are
ssl entries; the others are told apart by their display-name descriptor. -/
def kindOf (e : MatrixEntry) : EntryKind :=
  if e.ssl.isSome then .sslK
  else if pyIn "ASAN" e.name then .asan
  else if pyIn "gz=" e.name then .gz
  else if pyIn "all features" e.name then .allFeatures
  else .noFeatures

/-- The sub-sequence of matrix entries for one compiler of the Linux leg. -/
def linuxOf (m : List MatrixEntry) (cc : String) : List MatrixEntry :=
  m.filter fun e => e.CC == cc && e.TARGET == "linux-glibc"

/-- A JSON value as serialised by this program: every entry field is either a
string or a flat list of strings. -/
inductive JField where
  | s (v : String)
  | arr (vs : List String)
deriving DecidableEq

/-- `n` spaces. -/
def spaces (n : Nat) : String :=
  String.mk (List.replicate n ' ')

/-- JSON string-character escaping; the program only ever serialises printable
ASCII, where the quote and the backslash are the only characters
`json.dumps` escapes. -/
def jsonEscapeChar (c : Char) : String :=
  if c = '"' then "\\\""
  else if c = '\\' then "\\\\"
  else String.mk [c]

/-- A JSON string literal. -/
def jsonStr (s : String) : String :=
  "\"" ++ String.join (s.data.map jsonEscapeChar) ++ "\""

/-- Renders one field value at nesting level `lvl` (each level indents by 4,
the `indent=4` argument of `json.dumps`). -/
def dumpField (lvl : Nat) : JField → String
  | .s v => jsonStr v
  | .arr [] => "[]"
  | .arr vs =>
      "[\n"
        ++ String.intercalate ",\n" (vs.map fun v => spaces (4 * (lvl + 1)) ++ jsonStr v)
        ++ "\n" ++ spaces (4 * lvl) ++ "]"

/-- The key/value pairs of one entry in dict insertion order (`name`, `os`,
`TARGET`, `CC`, then `ssl` when present, then `FLAGS`). -/
def entryPairs (e : MatrixEntry) : List (String × JField) :=
  [("name", JField.s e.name), ("os", JField.s e.os), ("TARGET", JField.s e.TARGET),
      ("CC", JField.s e.CC)]
    ++ (match e.ssl with
        | some s => [("ssl", JField.s s)]
        | none => [])
    ++ [("FLAGS", JField.arr e.FLAGS)]

/-- Insertion step of the key sort. -/
def insertKV (p : String × JField) : List (String × JField) → List (String × JField)
  | [] => [p]
  | q :: rest => if pyStrLt p.1 q.1 then p :: q :: rest else q :: insertKV p rest

/-- Stable insertion sort by key, Python's code-point string order -- the
`sort_keys=True` argument of `json.dumps`. -/
def sortKV : List (String × JField) → List (String × JField)
  | [] => []
  | p :: rest => insertKV p (sortKV rest)

/-- Renders one entry object at nesting level `lvl`.  Modelled from Python's
`json.dumps(..., indent=4, sort_keys=True)`: keys sorted, each line of a
container indented 4 deeper, item separator `",\n"`, key separator `": "`.
(The object braces are written as their character codes `7b`/`7d`.) -/
def dumpEntry (lvl : Nat) (e : MatrixEntry) : String :=
  "\x7b\n"
    ++ String.intercalate ",\n"
        ((sortKV (entryPairs e)).map fun p =>
          spaces (4 * (lvl + 1)) ++ jsonStr p.1 ++ ": " ++ dumpField (lvl + 1) p.2)
    ++ "\n" ++ spaces (4 * lvl) ++ "\x7d"

/-- `json.dumps(matrix, indent=4, sort_keys=True)` (matrix.py line 240). -/
def jsonDumpsMatrix : List MatrixEntry → String
  | [] => "[]"
  | m =>
      "[\n"
        ++ String.intercalate ",\n" (m.map fun e => spaces 4 ++ dumpEntry 1 e)
        ++ "\n]"

/-- The banner printed to standard output before the matrix is built
(matrix.py line 32). -/
def bannerLine (ref_name : String) : String :=
  "Generating matrix for branch \x27" ++ ref_name ++ "\x27."

/-- How the process ended: exit 0 after the JSON print, exit 1 from the usage
check, or exit 1 from an uncaught exception (whose name is recorded; the
interpreter prints its traceback to stderr). -/
inductive Outcome where
  | success
  | usage
  | uncaught (exn : String)
deriving DecidableEq

/-- The process exit code of an outcome. -/
def exitCode : Outcome → Nat
  | .success => 0
  | .usage => 1
  | .uncaught _ => 1

/-- Observable result of one run: the lines printed to standard output and
standard error, and how the process ended. -/
structure RunResult where
  stdout : List String
  stderr : List String
  outcome : Outcome
deriving DecidableEq

/-- One run of the script.  `sys.argv` is `prog :: args` (the interpreter
always passes the script path first).  With exactly one positional argument
the script prints the banner, builds the matrix and prints its JSON dump;
otherwise it prints the usage line to stderr and exits 1 before printing
anything to stdout (matrix.py lines 18-22).  The optional `GITHUB_OUTPUT`
file append and the `GITHUB_TOKEN` request header do not affect any of these
observables and are not modelled. -/
def mainRun (prog : String) (args : List String) (oF : OpensslFetch)
    (lF : LibresslFetch) : RunResult :=
  match args with
  | [ref_name] =>
      match buildMatrix ref_name oF lF with
      | .ok m =>
          { stdout := [bannerLine ref_name, jsonDumpsMatrix m]
            stderr := [], outcome := .success }
      | .error e =>
          { stdout := [bannerLine ref_name], stderr := [e], outcome := .uncaught e }
  | _ =>
      { stdout := [], stderr := ["Usage: " ++ prog ++ " <ref_name>"]
        outcome := .usage }

/-- One call through a `functools.lru_cache`-decorated resolver: a hit returns
the cached value without touching the network; a miss runs the underlying
function `f` (one network access, the `Nat` in the result) and caches a
successful value.  A raising call caches nothing, as `lru_cache` does.  Each
decorated function holds at most one key per run (its constant marker
argument), so the size-5 eviction bound is never reached and is not
modelled. -/
def lruResolve (f : String → Except String String) (cache : List (String × String))
    (key : String) : Except String (String × List (String × String) × Nat) :=
  match cache.lookup key with
  | some v => .ok (v, cache, 0)
  | none =>
      match f key with
      | .ok v => .ok (v, (key, v) :: cache, 1)
      | .error e => .error e

example : pyIn "haproxy-" "haproxy-2.8" = true := by decide
example : pyIn "haproxy-" "main" = false := by decide
example : clean_ssl "OPENSSL_VERSION=1.1.1s" = "openssl=1.1.1s" := by decide
example : clean_compression "USE_ZLIB=1" = "zlib=1" := by decide
example :
    reSplitLibressl "libressl-3.9.2.tar.gz.asc\n" = ["", "3.9.2", "\n"] := by decide
example :
    determine_latest_libressl (.body ["libressl-3.9.2.tar.gz.asc\n"]) =
      .ok "LIBRESSL_VERSION=3.9.2" := by decide
example :
    determine_latest_openssl (.body (some ["openssl-1.1.1s", "openssl-3.0.0", "other"])) =
      .ok "OPENSSL_VERSION=3.0.0" := by decide


/-- Suffix test on character lists ("the name ends in ..."). -/
def listSuffix (needle hay : List Char) : Bool :=
  needle.reverse.isPrefixOf hay.reverse

section HelperLemmas

/-- The matrix built for any stable ref (`"haproxy-"` in the name): no `latest`
marker is in the candidate list, so neither resolver is consulted and the
result is this fixed 17-entry list. -/
def stableMatrix : List MatrixEntry :=
  (buildMatrixFor true OpensslFetch.fetchError LibresslFetch.fetchError).toOption.getD []

theorem buildMatrixFor_true (oF : OpensslFetch) (lF : LibresslFetch) :
    buildMatrixFor true oF lF = .ok stableMatrix := rfl

theorem sslEntry_fields (os' cc s : String) (oF : OpensslFetch) (lF : LibresslFetch)
    (e : MatrixEntry) (h : sslEntry os' cc s oF lF = .ok e) :
    e.CC = cc ∧ e.TARGET = "linux-glibc" ∧ e.ssl.isSome = true ∧ e.FLAGS = sslFlags s := by
  unfold sslEntry at h
  cases hr : resolveSsl s oF lF with
  | error err => rw [hr] at h; cases h
  | ok v => rw [hr] at h; cases h; exact ⟨rfl, rfl, rfl, rfl⟩

theorem sslEntry_ssl_agree (os' c1 c2 s : String) (oF : OpensslFetch) (lF : LibresslFetch)
    (e1 e2 : MatrixEntry) (h1 : sslEntry os' c1 s oF lF = .ok e1)
    (h2 : sslEntry os' c2 s oF lF = .ok e2) : e1.ssl = e2.ssl := by
  unfold sslEntry at h1 h2
  cases hr : resolveSsl s oF lF with
  | error err => rw [hr] at h1; cases h1
  | ok v => rw [hr] at h1 h2; cases h1; cases h2; rfl

theorem sslEntriesFrom_shape (l : List String) (os' cc : String) (oF : OpensslFetch)
    (lF : LibresslFetch) (es : List MatrixEntry)
    (h : sslEntriesFrom os' cc oF lF l = .ok es) :
    es.map kindOf = List.replicate l.length EntryKind.sslK ∧
      ∀ e ∈ es, e.CC = cc ∧ e.TARGET = "linux-glibc" := by
  induction l generalizing es with
  | nil => cases h; exact ⟨rfl, by intro e he; cases he⟩
  | cons s rest ih =>
    unfold sslEntriesFrom at h
    cases he : sslEntry os' cc s oF lF with
    | error err => rw [he] at h; cases h
    | ok e =>
      rw [he] at h
      cases hr : sslEntriesFrom os' cc oF lF rest with
      | error err => rw [hr] at h; cases h
      | ok es' =>
        rw [hr] at h
        cases h
        obtain ⟨hmap, hall⟩ := ih es' hr
        obtain ⟨hcc, htg, hssl, _⟩ := sslEntry_fields os' cc s oF lF e he
        refine ⟨?_, ?_⟩
        · have hk : kindOf e = EntryKind.sslK := by unfold kindOf; rw [hssl]; rfl
          simp [List.map_cons, hk, hmap, List.replicate]
        · intro x hx
          rcases List.mem_cons.mp hx with hx | hx
          · subst hx; exact ⟨hcc, htg⟩
          · exact hall x hx

theorem sslEntriesFrom_ssl_agree (l : List String) (os' c1 c2 : String) (oF : OpensslFetch)
    (lF : LibresslFetch) (es1 es2 : List MatrixEntry)
    (h1 : sslEntriesFrom os' c1 oF lF l = .ok es1)
    (h2 : sslEntriesFrom os' c2 oF lF l = .ok es2) :
    es1.map MatrixEntry.ssl = es2.map MatrixEntry.ssl := by
  induction l generalizing es1 es2 with
  | nil => cases h1; cases h2; rfl
  | cons s rest ih =>
    unfold sslEntriesFrom at h1 h2
    cases he1 : sslEntry os' c1 s oF lF with
    | error err => rw [he1] at h1; cases h1
    | ok e1 =>
      rw [he1] at h1
      cases hr1 : sslEntriesFrom os' c1 oF lF rest with
      | error err => rw [hr1] at h1; cases h1
      | ok es1' =>
        rw [hr1] at h1
        cases he2 : sslEntry os' c2 s oF lF with
        | error err => rw [he2] at h2; cases h2
        | ok e2 =>
          rw [he2] at h2
          cases hr2 : sslEntriesFrom os' c2 oF lF rest with
          | error err => rw [hr2] at h2; cases h2
          | ok es2' =>
            rw [hr2] at h2
            cases h1; cases h2
            have hs := sslEntry_ssl_agree os' c1 c2 s oF lF e1 e2 he1 he2
            simp [List.map_cons, hs, ih es1' es2' hr1 hr2]

theorem assemble_ok (linOs macOs : String) (g c : Except String (List MatrixEntry))
    (m : List MatrixEntry) (h : assemble linOs macOs g c = .ok m) :
    ∃ gs cs, g = .ok gs ∧ c = .ok cs ∧
      m = linuxStatic linOs "gcc" ++ gs ++ linuxStatic linOs "clang" ++ cs
            ++ [noFeaturesEntry macOs "osx" "clang"] := by
  unfold assemble at h
  cases hg : g with
  | error err => rw [hg] at h; cases h
  | ok gs =>
    rw [hg] at h
    cases hc : c with
    | error err => rw [hc] at h; cases h
    | ok cs => rw [hc] at h; cases h; exact ⟨gs, cs, rfl, rfl, rfl⟩

theorem mainRun_match (prog ref_name : String) (oF : OpensslFetch) (lF : LibresslFetch) :
    mainRun prog [ref_name] oF lF =
      (match buildMatrix ref_name oF lF with
        | .ok m =>
            { stdout := [bannerLine ref_name, jsonDumpsMatrix m]
              stderr := [], outcome := Outcome.success }
        | .error e =>
            { stdout := [bannerLine ref_name], stderr := [e]
              outcome := Outcome.uncaught e }) := rfl

theorem mainRun_ok (prog ref_name : String) (oF : OpensslFetch) (lF : LibresslFetch)
    (m : List MatrixEntry) (h : buildMatrix ref_name oF lF = .ok m) :
    mainRun prog [ref_name] oF lF =
      { stdout := [bannerLine ref_name, jsonDumpsMatrix m]
        stderr := [], outcome := Outcome.success } := by
  rw [mainRun_match, h]

end HelperLemmas

/-- C1 (counterexample): the claim fails in the malformed-body case.  When the
OpenSSL tags fetch succeeds but the body is not JSON, `determine_latest_openssl`
does not return its sentinel -- `json.loads` runs outside the `try:` and the
exception escapes -- and the run aborts instead of completing with a sentinel
matrix entry. -/
theorem c1_counterexample :
    determine_latest_openssl (OpensslFetch.body none) ≠
        Except.ok "OPENSSL_VERSION=failed_to_detect" ∧
    (mainRun "./matrix.py" ["main"] (OpensslFetch.body none)
        LibresslFetch.fetchError).outcome ≠ Outcome.success :=
  ⟨by decide, by decide⟩

/-- C1 (amended): failures of the HTTP request itself (network error, non-2xx
-- both raised by `urlopen` and caught by the bare `except:`) make each
resolver return its sentinel string with no exception; but a fetched body that
is malformed / not JSON raises `json.JSONDecodeError` out of
`determine_latest_openssl`, and on a development ref the run then aborts with
that uncaught exception after printing only the banner -- the matrix JSON is
never emitted. -/
theorem c1_failure_handling :
    determine_latest_openssl OpensslFetch.fetchError =
        .ok "OPENSSL_VERSION=failed_to_detect" ∧
    determine_latest_libressl LibresslFetch.fetchError =
        .ok "LIBRESSL_VERSION=failed_to_detect" ∧
    determine_latest_openssl (OpensslFetch.body none) = .error "json.JSONDecodeError" ∧
    ∀ lF : LibresslFetch,
      (mainRun "./matrix.py" ["main"] (OpensslFetch.body none) lF).outcome =
          Outcome.uncaught "json.JSONDecodeError" ∧
      (mainRun "./matrix.py" ["main"] (OpensslFetch.body none) lF).stdout =
          [bannerLine "main"] :=
  ⟨rfl, rfl, rfl, fun _ => ⟨rfl, rfl⟩⟩

/-- C3 (counterexample): `clean_compression "USE_ZLIB=1"` is `"zlib=1"`, not
`"zlib"` -- `replace("USE_", "")` keeps the `=1` -- so the compression entry's
display name ends in `gz=zlib=1`, not `gz=zlib`. -/
theorem c3_counterexample :
    clean_compression "USE_ZLIB=1" ≠ "zlib" ∧
    (compressionEntries "ubuntu-22.04" "gcc").map MatrixEntry.name =
        ["ubuntu-22.04, gcc, gz=zlib=1"] ∧
    listSuffix "gz=zlib".data "ubuntu-22.04, gcc, gz=zlib=1".data = false :=
  ⟨by decide, by decide, by decide⟩

/-- C3 (amended): descriptor derivation strips the library-specific prefix or
suffix and lowercases; the compression flag `USE_ZLIB=1` yields descriptor
component `zlib=1` (the entry name ends in `gz=zlib=1`), and the version token
`OPENSSL_VERSION=1.1.1s` yields `openssl=1.1.1s` (shown on the pinned ssl
entry's name). -/
theorem c3_descriptors :
    clean_compression "USE_ZLIB=1" = "zlib=1" ∧
    clean_ssl "OPENSSL_VERSION=1.1.1s" = "openssl=1.1.1s" ∧
    (compressionEntries "ubuntu-22.04" "gcc").map MatrixEntry.name =
        ["ubuntu-22.04, gcc, gz=zlib=1"] ∧
    listSuffix "gz=zlib=1".data "ubuntu-22.04, gcc, gz=zlib=1".data = true ∧
    (sslEntry "ubuntu-22.04" "gcc" "OPENSSL_VERSION=1.1.1s" OpensslFetch.fetchError
          LibresslFetch.fetchError).toOption.map MatrixEntry.name =
        some "ubuntu-22.04, gcc, ssl=openssl=1.1.1s" :=
  ⟨by decide, by decide, by decide, by decide, by decide⟩

/-- C6: for every TLS marker in the candidate list, the built FLAGS contain
`USE_QUIC=1` exactly when the marker is `QUICTLS=yes` or contains `LIBRESSL`,
and contain the custom-path flags `SSL_LIB`/`SSL_INC` exactly when the marker
is not `stock`. -/
theorem c6_flag_conditions (ref_name ssl : String) (h : ssl ∈ ssl_versions ref_name) :
    ("USE_QUIC=1" ∈ sslFlags ssl ↔ (ssl = "QUICTLS=yes" ∨ pyIn "LIBRESSL" ssl = true)) ∧
    (("SSL_LIB=${HOME}/opt/lib" ∈ sslFlags ssl ∧
        "SSL_INC=${HOME}/opt/include" ∈ sslFlags ssl) ↔ ssl ≠ "stock") := by
  unfold ssl_versions at h
  cases hb : pyIn "haproxy-" ref_name
  · rw [hb] at h
    have h2 : ssl ∈ ["stock", "OPENSSL_VERSION=1.0.2u", "OPENSSL_VERSION=1.1.1s",
        "QUICTLS=yes", "OPENSSL_VERSION=latest", "LIBRESSL_VERSION=latest"] := h
    fin_cases h2 <;> exact ⟨by decide, by decide⟩
  · rw [hb] at h
    have h2 : ssl ∈ ["stock", "OPENSSL_VERSION=1.0.2u", "OPENSSL_VERSION=1.1.1s",
        "QUICTLS=yes"] := h
    fin_cases h2 <;> exact ⟨by decide, by decide⟩

/-- C6 witness: instantiated at the QUIC marker of the development list. -/
theorem c6_flag_conditions_witness :
    ("USE_QUIC=1" ∈ sslFlags "QUICTLS=yes" ↔
        ("QUICTLS=yes" = "QUICTLS=yes" ∨ pyIn "LIBRESSL" "QUICTLS=yes" = true)) ∧
    (("SSL_LIB=${HOME}/opt/lib" ∈ sslFlags "QUICTLS=yes" ∧
        "SSL_INC=${HOME}/opt/include" ∈ sslFlags "QUICTLS=yes") ↔
      "QUICTLS=yes" ≠ "stock") :=
  c6_flag_conditions "main" "QUICTLS=yes" (by decide)

/-- C10: when the tags body parses as a JSON array but no tag name contains
`openssl-`, the selection loop leaves `latest_tag` empty and the function
returns `OPENSSL_VERSION=` with the empty version slice, not the sentinel. -/
theorem c10_no_matching_tag (tags : List String)
    (h : ∀ n ∈ tags, pyIn "openssl-" n = false) :
    determine_latest_openssl (OpensslFetch.body (some tags)) = .ok "OPENSSL_VERSION=" := by
  have hfold : ∀ (l : List String), (∀ n ∈ l, pyIn "openssl-" n = false) →
      ∀ acc, l.foldl opensslFoldStep acc = acc := by
    intro l
    induction l with
    | nil => intro _ acc; rfl
    | cons t ts ih =>
      intro hl acc
      have ht : pyIn "openssl-" t = false := hl t (List.mem_cons_self t ts)
      have hstep : opensslFoldStep acc t = acc := by
        unfold opensslFoldStep
        rw [ht]
        rfl
      rw [List.foldl_cons, hstep]
      exact ih (fun n hn => hl n (List.mem_cons_of_mem t hn)) acc
  show Except.ok ("OPENSSL_VERSION="
      ++ String.mk ((tags.foldl opensslFoldStep "").data.drop 8)) = _
  rw [hfold tags h ""]
  rfl

/-- C10 witness: a tag list with no `openssl-` tag. -/
theorem c10_no_matching_tag_witness :
    determine_latest_openssl (OpensslFetch.body (some ["foo", "v1.1.1"])) =
      .ok "OPENSSL_VERSION=" :=
  c10_no_matching_tag ["foo", "v1.1.1"] (by decide)

/-- C5: a ref containing `haproxy-` is stable -- Linux os `ubuntu-22.04`,
macOS os `macos-12`, candidate list without `latest` markers, and no entry of
the built matrix carries an ssl value containing `latest` (Linux entries all
get the stable os); otherwise the run is development -- `ubuntu-latest`,
`macos-latest`, and the two additional `latest` markers. -/
theorem c5_branch_classification (ref_name : String) (oF : OpensslFetch)
    (lF : LibresslFetch) :
    (pyIn "haproxy-" ref_name = true →
      linux_os ref_name = "ubuntu-22.04" ∧ macos_os ref_name = "macos-12" ∧
      ssl_versions ref_name =
        ["stock", "OPENSSL_VERSION=1.0.2u", "OPENSSL_VERSION=1.1.1s", "QUICTLS=yes"] ∧
      ∀ m, buildMatrix ref_name oF lF = .ok m →
        ∀ e ∈ m, (e.TARGET = "linux-glibc" → e.os = "ubuntu-22.04") ∧
          pyIn "latest" (e.ssl.getD "") = false) ∧
    (pyIn "haproxy-" ref_name = false →
      linux_os ref_name = "ubuntu-latest" ∧ macos_os ref_name = "macos-latest" ∧
      ssl_versions ref_name =
        ["stock", "OPENSSL_VERSION=1.0.2u", "OPENSSL_VERSION=1.1.1s", "QUICTLS=yes",
         "OPENSSL_VERSION=latest", "LIBRESSL_VERSION=latest"]) := by
  constructor
  · intro h
    refine ⟨?_, ?_, ?_, ?_⟩
    · unfold linux_os; rw [h]; rfl
    · unfold macos_os; rw [h]; rfl
    · unfold ssl_versions; rw [h]; rfl
    · intro m hm
      unfold buildMatrix at hm
      rw [h, buildMatrixFor_true] at hm
      injection hm with hm2
      subst hm2
      decide
  · intro h
    refine ⟨?_, ?_, ?_⟩
    · unfold linux_os; rw [h]; rfl
    · unfold macos_os; rw [h]; rfl
    · unfold ssl_versions; rw [h]; rfl

/-- C5 witness: instantiated at the stable ref `haproxy-2.8` and the
development ref `main`. -/
theorem c5_branch_classification_witness :
    (linux_os "haproxy-2.8" = "ubuntu-22.04" ∧ macos_os "haproxy-2.8" = "macos-12" ∧
      ssl_versions "haproxy-2.8" =
        ["stock", "OPENSSL_VERSION=1.0.2u", "OPENSSL_VERSION=1.1.1s", "QUICTLS=yes"] ∧
      ∀ m, buildMatrix "haproxy-2.8" OpensslFetch.fetchError LibresslFetch.fetchError =
          .ok m →
        ∀ e ∈ m, (e.TARGET = "linux-glibc" → e.os = "ubuntu-22.04") ∧
          pyIn "latest" (e.ssl.getD "") = false) ∧
    (linux_os "main" = "ubuntu-latest" ∧ macos_os "main" = "macos-latest" ∧
      ssl_versions "main" =
        ["stock", "OPENSSL_VERSION=1.0.2u", "OPENSSL_VERSION=1.1.1s", "QUICTLS=yes",
         "OPENSSL_VERSION=latest", "LIBRESSL_VERSION=latest"]) :=
  ⟨(c5_branch_classification "haproxy-2.8" OpensslFetch.fetchError
      LibresslFetch.fetchError).1 (by decide),
   (c5_branch_classification "main" OpensslFetch.fetchError
      LibresslFetch.fetchError).2 (by decide)⟩

/-- C8: an ssl entry's FLAGS are exactly the flag set built from the original
marker before resolution; resolving a `latest` marker (under any fetch
outcomes, hence any resolution result) changes only the `name`/`ssl` values,
never the FLAGS. -/
theorem c8_flags_unchanged_by_resolution (os' cc ssl : String) (oF : OpensslFetch)
    (lF : LibresslFetch) (oF' : OpensslFetch) (lF' : LibresslFetch) (e e' : MatrixEntry)
    (h : sslEntry os' cc ssl oF lF = .ok e) (h' : sslEntry os' cc ssl oF' lF' = .ok e') :
    e.FLAGS = sslFlags ssl ∧ e'.FLAGS = e.FLAGS := by
  obtain ⟨_, _, _, hf⟩ := sslEntry_fields os' cc ssl oF lF e h
  obtain ⟨_, _, _, hf'⟩ := sslEntry_fields os' cc ssl oF' lF' e' h'
  rw [hf, hf']
  exact ⟨rfl, rfl⟩

/-- C8 witness: the `OPENSSL_VERSION=latest` marker resolved two different
ways (empty tag list vs. network failure) keeps the same FLAGS. -/
theorem c8_flags_unchanged_by_resolution_witness :
    ({ name := "ubuntu-latest, gcc, ssl=openssl="
       os := "ubuntu-latest", TARGET := "linux-glibc", CC := "gcc"
       ssl := some "OPENSSL_VERSION="
       FLAGS := ["USE_OPENSSL=1", "SSL_LIB=${HOME}/opt/lib", "SSL_INC=${HOME}/opt/include"] :
        MatrixEntry}).FLAGS = sslFlags "OPENSSL_VERSION=latest" ∧
    ({ name := "ubuntu-latest, gcc, ssl=openssl=failed_to_detect"
       os := "ubuntu-latest", TARGET := "linux-glibc", CC := "gcc"
       ssl := some "OPENSSL_VERSION=failed_to_detect"
       FLAGS := ["USE_OPENSSL=1", "SSL_LIB=${HOME}/opt/lib", "SSL_INC=${HOME}/opt/include"] :
        MatrixEntry}).FLAGS =
      ({ name := "ubuntu-latest, gcc, ssl=openssl="
         os := "ubuntu-latest", TARGET := "linux-glibc", CC := "gcc"
         ssl := some "OPENSSL_VERSION="
         FLAGS := ["USE_OPENSSL=1", "SSL_LIB=${HOME}/opt/lib", "SSL_INC=${HOME}/opt/include"] :
          MatrixEntry}).FLAGS :=
  c8_flags_unchanged_by_resolution "ubuntu-latest" "gcc" "OPENSSL_VERSION=latest"
    (OpensslFetch.body (some [])) (LibresslFetch.fetchError)
    OpensslFetch.fetchError LibresslFetch.fetchError _ _ (by decide) (by decide)

/-- C9: with zero or two-plus positional arguments the run prints only the
usage line to stderr and exits 1 with empty stdout (no JSON); with exactly one
argument and a successful build it exits 0. -/
theorem c9_cli (prog : String) (args : List String) (oF : OpensslFetch)
    (lF : LibresslFetch) :
    (args.length ≠ 1 →
      mainRun prog args oF lF =
        { stdout := [], stderr := ["Usage: " ++ prog ++ " <ref_name>"]
          outcome := Outcome.usage } ∧
      exitCode (mainRun prog args oF lF).outcome = 1) ∧
    (∀ ref_name m, args = [ref_name] → buildMatrix ref_name oF lF = .ok m →
      (mainRun prog args oF lF).outcome = Outcome.success ∧
      exitCode (mainRun prog args oF lF).outcome = 0) := by
  constructor
  · intro hlen
    cases args with
    | nil => exact ⟨rfl, rfl⟩
    | cons a as =>
      cases as with
      | nil => exact absurd rfl hlen
      | cons b bs => exact ⟨rfl, rfl⟩
  · intro ref_name m he hb
    subst he
    rw [mainRun_ok prog ref_name oF lF m hb]
    exact ⟨rfl, rfl⟩

/-- C9 witness: two arguments give the usage failure; the single argument
`haproxy-2.8` gives a successful exit-0 run. -/
theorem c9_cli_witness :
    (mainRun "./matrix.py" ["a", "b"] OpensslFetch.fetchError LibresslFetch.fetchError =
        { stdout := [], stderr := ["Usage: ./matrix.py <ref_name>"]
          outcome := Outcome.usage } ∧
      exitCode (mainRun "./matrix.py" ["a", "b"] OpensslFetch.fetchError
          LibresslFetch.fetchError).outcome = 1) ∧
    ((mainRun "./matrix.py" ["haproxy-2.8"] OpensslFetch.fetchError
          LibresslFetch.fetchError).outcome = Outcome.success ∧
      exitCode (mainRun "./matrix.py" ["haproxy-2.8"] OpensslFetch.fetchError
          LibresslFetch.fetchError).outcome = 0) :=
  ⟨(c9_cli "./matrix.py" ["a", "b"] OpensslFetch.fetchError LibresslFetch.fetchError).1
      (by decide),
   (c9_cli "./matrix.py" ["haproxy-2.8"] OpensslFetch.fetchError
      LibresslFetch.fetchError).2 "haproxy-2.8" stableMatrix rfl rfl⟩

/-- C4 (counterexample): on the successful stable run for `haproxy-2.8`,
standard output is not just the JSON array -- it has two lines, the first of
which is the banner, which is not the JSON dump. -/
theorem c4_counterexample :
    (mainRun "./matrix.py" ["haproxy-2.8"] OpensslFetch.fetchError
        LibresslFetch.fetchError).stdout.length ≠ 1 ∧
    (mainRun "./matrix.py" ["haproxy-2.8"] OpensslFetch.fetchError
        LibresslFetch.fetchError).stdout.head? = some (bannerLine "haproxy-2.8") ∧
    bannerLine "haproxy-2.8" ≠ jsonDumpsMatrix stableMatrix :=
  ⟨by decide, by decide, by decide⟩

/-- C4 (amended): on a successful run standard output is the banner line
`Generating matrix for branch ...` followed by
`json.dumps(matrix, indent=4, sort_keys=True)` -- whose per-entry keys come
out sorted ascending (`CC < FLAGS < TARGET < name < os < ssl` in code-point
order). -/
theorem c4_stdout (prog ref_name : String) (oF : OpensslFetch) (lF : LibresslFetch)
    (m : List MatrixEntry) (h : buildMatrix ref_name oF lF = .ok m) :
    (mainRun prog [ref_name] oF lF).stdout = [bannerLine ref_name, jsonDumpsMatrix m] ∧
    (mainRun prog [ref_name] oF lF).outcome = Outcome.success ∧
    ∀ e ∈ m, (sortKV (entryPairs e)).map Prod.fst =
      if e.ssl.isSome then ["CC", "FLAGS", "TARGET", "name", "os", "ssl"]
      else ["CC", "FLAGS", "TARGET", "name", "os"] := by
  refine ⟨?_, ?_, ?_⟩
  · rw [mainRun_ok prog ref_name oF lF m h]
  · rw [mainRun_ok prog ref_name oF lF m h]
  · intro e he
    obtain ⟨n, o, t, c, ssl?, f⟩ := e
    cases ssl? with
    | none => rfl
    | some s => rfl

/-- C4 witness: the stable `haproxy-2.8` run. -/
theorem c4_stdout_witness :
    (mainRun "./matrix.py" ["haproxy-2.8"] OpensslFetch.fetchError
        LibresslFetch.fetchError).stdout =
      [bannerLine "haproxy-2.8", jsonDumpsMatrix stableMatrix] ∧
    (mainRun "./matrix.py" ["haproxy-2.8"] OpensslFetch.fetchError
        LibresslFetch.fetchError).outcome = Outcome.success :=
  ⟨(c4_stdout "./matrix.py" "haproxy-2.8" OpensslFetch.fetchError
      LibresslFetch.fetchError stableMatrix rfl).1,
   (c4_stdout "./matrix.py" "haproxy-2.8" OpensslFetch.fetchError
      LibresslFetch.fetchError stableMatrix rfl).2.1⟩

/-- The development candidate list, `ssl_versionsFor false` written out. -/
def devSslVersions : List String :=
  ["stock", "OPENSSL_VERSION=1.0.2u", "OPENSSL_VERSION=1.1.1s", "QUICTLS=yes",
   "OPENSSL_VERSION=latest", "LIBRESSL_VERSION=latest"]

theorem buildMatrixFor_false_eq (oF : OpensslFetch) (lF : LibresslFetch) :
    buildMatrixFor false oF lF =
      assemble "ubuntu-latest" "macos-latest"
        (sslEntriesFrom "ubuntu-latest" "gcc" oF lF devSslVersions)
        (sslEntriesFrom "ubuntu-latest" "clang" oF lF devSslVersions) := rfl

theorem linuxOf_decomp (gs cs : List MatrixEntry)
    (hg : ∀ e ∈ gs, e.CC = "gcc" ∧ e.TARGET = "linux-glibc")
    (hc : ∀ e ∈ cs, e.CC = "clang" ∧ e.TARGET = "linux-glibc") :
    linuxOf (linuxStatic "ubuntu-latest" "gcc" ++ gs ++ linuxStatic "ubuntu-latest" "clang"
        ++ cs ++ [noFeaturesEntry "macos-latest" "osx" "clang"]) "gcc" =
      linuxStatic "ubuntu-latest" "gcc" ++ gs ∧
    linuxOf (linuxStatic "ubuntu-latest" "gcc" ++ gs ++ linuxStatic "ubuntu-latest" "clang"
        ++ cs ++ [noFeaturesEntry "macos-latest" "osx" "clang"]) "clang" =
      linuxStatic "ubuntu-latest" "clang" ++ cs := by
  have hgg : gs.filter (fun e => e.CC == "gcc" && e.TARGET == "linux-glibc") = gs :=
    List.filter_eq_self.mpr (fun e he => by
      obtain ⟨h1, h2⟩ := hg e he; simp [h1, h2])
  have hgc : gs.filter (fun e => e.CC == "clang" && e.TARGET == "linux-glibc") = [] :=
    List.filter_eq_nil_iff.mpr (fun e he => by
      obtain ⟨h1, h2⟩ := hg e he; simp [h1, h2])
  have hcg : cs.filter (fun e => e.CC == "gcc" && e.TARGET == "linux-glibc") = [] :=
    List.filter_eq_nil_iff.mpr (fun e he => by
      obtain ⟨h1, h2⟩ := hc e he; simp [h1, h2])
  have hcc2 : cs.filter (fun e => e.CC == "clang" && e.TARGET == "linux-glibc") = cs :=
    List.filter_eq_self.mpr (fun e he => by
      obtain ⟨h1, h2⟩ := hc e he; simp [h1, h2])
  have hS1g : (linuxStatic "ubuntu-latest" "gcc").filter
      (fun e => e.CC == "gcc" && e.TARGET == "linux-glibc") =
      linuxStatic "ubuntu-latest" "gcc" := by decide
  have hS1c : (linuxStatic "ubuntu-latest" "gcc").filter
      (fun e => e.CC == "clang" && e.TARGET == "linux-glibc") = [] := by decide
  have hS2g : (linuxStatic "ubuntu-latest" "clang").filter
      (fun e => e.CC == "gcc" && e.TARGET == "linux-glibc") = [] := by decide
  have hS2c : (linuxStatic "ubuntu-latest" "clang").filter
      (fun e => e.CC == "clang" && e.TARGET == "linux-glibc") =
      linuxStatic "ubuntu-latest" "clang" := by decide
  have hMg : [noFeaturesEntry "macos-latest" "osx" "clang"].filter
      (fun e => e.CC == "gcc" && e.TARGET == "linux-glibc") = [] := by decide
  have hMc : [noFeaturesEntry "macos-latest" "osx" "clang"].filter
      (fun e => e.CC == "clang" && e.TARGET == "linux-glibc") = [] := by decide
  constructor
  · unfold linuxOf
    simp only [List.filter_append, hS1g, hgg, hS2g, hcg, hMg, List.append_nil]
  · unfold linuxOf
    simp only [List.filter_append, hS1c, hgc, hS2c, hcc2, hMc, List.nil_append,
      List.append_nil]

/-- C2 (counterexample): for the stable ref `haproxy-2.8` the gcc Linux leg
has 4 `ssl` entries (the candidate list is `stock`, two pinned OpenSSL
versions, `QUICTLS=yes`; `BORINGSSL=yes` is commented out), not the claimed 5;
a development run has 6, not 7. -/
theorem c2_ssl_count_counterexample :
    ((linuxOf (theMatrix "haproxy-2.8" OpensslFetch.fetchError LibresslFetch.fetchError)
        "gcc").countP fun e => e.ssl.isSome) ≠ 5 ∧
    ((linuxOf (theMatrix "main" (OpensslFetch.body (some ["openssl-3.0.0"]))
        (LibresslFetch.body ["libressl-3.9.2.tar.gz.asc"])) "gcc").countP
        fun e => e.ssl.isSome) ≠ 7 :=
  ⟨by decide, by decide⟩

/-- C2 (amended): for every compiler in `{gcc, clang}`, the Linux leg of any
successfully built matrix is exactly one "no features", one "all features",
one "ASAN, all features", one compression (`gz=`) entry, then 4 (stable ref,
containing `haproxy-`) or 6 (development) ssl entries, in that fixed order. -/
theorem c2_linux_leg (ref_name : String) (oF : OpensslFetch) (lF : LibresslFetch)
    (m : List MatrixEntry) (h : buildMatrix ref_name oF lF = .ok m)
    (cc : String) (hcc : cc ∈ ["gcc", "clang"]) :
    (linuxOf m cc).map kindOf =
      [EntryKind.noFeatures, EntryKind.allFeatures, EntryKind.asan, EntryKind.gz] ++
        List.replicate (if pyIn "haproxy-" ref_name then 4 else 6) EntryKind.sslK := by
  unfold buildMatrix at h
  cases hb : pyIn "haproxy-" ref_name
  case true =>
    rw [hb, buildMatrixFor_true] at h
    injection h with h2
    subst h2
    fin_cases hcc <;> decide
  case false =>
    rw [hb, buildMatrixFor_false_eq] at h
    obtain ⟨gs, cs, hg, hc, hm⟩ := assemble_ok _ _ _ _ _ h
    obtain ⟨hgmap, hgall⟩ := sslEntriesFrom_shape _ _ _ _ _ _ hg
    obtain ⟨hcmap, hcall⟩ := sslEntriesFrom_shape _ _ _ _ _ _ hc
    subst hm
    obtain ⟨hd1, hd2⟩ := linuxOf_decomp gs cs hgall hcall
    fin_cases hcc
    · rw [hd1, List.map_append, hgmap]; decide
    · rw [hd2, List.map_append, hcmap]; decide

/-- C2 witness: the stable gcc leg. -/
theorem c2_linux_leg_witness :
    (linuxOf stableMatrix "gcc").map kindOf =
      [EntryKind.noFeatures, EntryKind.allFeatures, EntryKind.asan, EntryKind.gz] ++
        List.replicate 4 EntryKind.sslK :=
  c2_linux_leg "haproxy-2.8" OpensslFetch.fetchError LibresslFetch.fetchError
    stableMatrix rfl "gcc" (by decide)

/-- C7: a lookup-category key already in the memoization cache is answered
with zero network accesses and the cached value (and a first successful call
performs exactly one network access and populates the cache); consequently, on
a development run, the resolved `ssl` strings of the gcc leg and the clang leg
of the built matrix are identical lists -- in particular both compilers'
`latest` entries carry the same resolved values. -/
theorem c7_memoized_resolution :
    (∀ (f : String → Except String String) (k v : String), f k = .ok v →
        lruResolve f [] k = .ok (v, [(k, v)], 1) ∧
        lruResolve f [(k, v)] k = .ok (v, [(k, v)], 0)) ∧
    (∀ (ref_name : String) (oF : OpensslFetch) (lF : LibresslFetch)
        (m : List MatrixEntry), pyIn "haproxy-" ref_name = false →
        buildMatrix ref_name oF lF = .ok m →
        (linuxOf m "gcc").filterMap MatrixEntry.ssl =
          (linuxOf m "clang").filterMap MatrixEntry.ssl) := by
  constructor
  · intro f k v hf
    constructor
    · simp [lruResolve, hf]
    · simp [lruResolve, List.lookup]
  · intro ref_name oF lF m hb h
    unfold buildMatrix at h
    rw [hb, buildMatrixFor_false_eq] at h
    obtain ⟨gs, cs, hg, hc, hm⟩ := assemble_ok _ _ _ _ _ h
    obtain ⟨_, hgall⟩ := sslEntriesFrom_shape _ _ _ _ _ _ hg
    obtain ⟨_, hcall⟩ := sslEntriesFrom_shape _ _ _ _ _ _ hc
    have hmapeq := sslEntriesFrom_ssl_agree _ _ _ _ _ _ _ _ hg hc
    subst hm
    obtain ⟨hd1, hd2⟩ := linuxOf_decomp gs cs hgall hcall
    rw [hd1, hd2, List.filterMap_append, List.filterMap_append]
    have hs1 : (linuxStatic "ubuntu-latest" "gcc").filterMap MatrixEntry.ssl = [] := by
      decide
    have hs2 : (linuxStatic "ubuntu-latest" "clang").filterMap MatrixEntry.ssl = [] := by
      decide
    rw [hs1, hs2]
    have h1 := congrArg (List.filterMap id) hmapeq
    rw [List.filterMap_map, List.filterMap_map] at h1
    simpa using h1

/-- C7 witness: a cache hit after one miss, and a concrete development run
whose two legs carry identical resolved ssl strings. -/
theorem c7_memoized_resolution_witness :
    (lruResolve (fun _ => Except.ok "OPENSSL_VERSION=3.6.0") [] "latest" =
        .ok ("OPENSSL_VERSION=3.6.0", [("latest", "OPENSSL_VERSION=3.6.0")], 1) ∧
      lruResolve (fun _ => Except.ok "OPENSSL_VERSION=3.6.0")
          [("latest", "OPENSSL_VERSION=3.6.0")] "latest" =
        .ok ("OPENSSL_VERSION=3.6.0", [("latest", "OPENSSL_VERSION=3.6.0")], 0)) ∧
    (linuxOf (theMatrix "main" (OpensslFetch.body (some ["openssl-3.0.0"]))
          (LibresslFetch.body ["libressl-3.9.2.tar.gz.asc"])) "gcc").filterMap
        MatrixEntry.ssl =
      (linuxOf (theMatrix "main" (OpensslFetch.body (some ["openssl-3.0.0"]))
          (LibresslFetch.body ["libressl-3.9.2.tar.gz.asc"])) "clang").filterMap
        MatrixEntry.ssl :=
  ⟨c7_memoized_resolution.1 (fun _ => Except.ok "OPENSSL_VERSION=3.6.0") "latest"
      "OPENSSL_VERSION=3.6.0" rfl,
   c7_memoized_resolution.2 "main" (OpensslFetch.body (some ["openssl-3.0.0"]))
      (LibresslFetch.body ["libressl-3.9.2.tar.gz.asc"])
      (theMatrix "main" (OpensslFetch.body (some ["openssl-3.0.0"]))
        (LibresslFetch.body ["libressl-3.9.2.tar.gz.asc"])) rfl rfl⟩
